import Mathlib

/-!
Verification of the logging subsystem of `taiwan-credit-cards`
(`src/logger.py`, `src/config.py`) against its specification.

The Python code is shallowly embedded:

* Python `logging` severity numbers are kept verbatim (`DEBUG = 10` …
  `CRITICAL = 50`); level arguments that the source accepts as
  `str | int` are modelled as already-resolved numeric levels.
* The process-wide state is a `RegState`: `store` is the heap of logger
  objects (a logger *handle* is its index into the store, which models
  Python reference identity), `manager` is the global
  `logging.Logger.manager.loggerDict` that `logging.getLogger` consults,
  and `cache` is the module-level `_loggers` dictionary of `logger.py`.
* Environment-derived configuration (`config.py`) is a `Config` record;
  the two environment-variable reads behind `IS_PRODUCTION` and
  `USE_JSON_FORMAT` are the functions in namespace `config`.
* `Path.mkdir` is the only fallible effect; a boolean `mkdirFails`
  parameter says whether it raises.  A raising function returns
  `Except.error st` carrying the process state at the raise point.
* Wall-clock instants are abstract ticks (`Nat`); `time.time()` readings
  are passed in as `t0`, `t1`.
-/

/-- Python `logging.NOTSET`, the level of a freshly constructed logger. -/
def NOTSET : Nat := 0

/-- Python `logging.DEBUG`. -/
def DEBUG : Nat := 10

/-- Python `logging.INFO`. -/
def INFO : Nat := 20

/-- Python `logging.WARNING`. -/
def WARNING : Nat := 30

/-- Python `logging.ERROR`. -/
def ERROR : Nat := 40

/-- Python `logging.CRITICAL`. -/
def CRITICAL : Nat := 50

/-- `config.LOG_FILE` (relative to the project root). -/
def LOG_FILE : String := "logs/app.log"

/-- `config.ERROR_LOG_FILE`. -/
def ERROR_LOG_FILE : String := "logs/error.log"

/-- `config.JSON_LOG_FILE`. -/
def JSON_LOG_FILE : String := "logs/app.json.log"

/-- Python `str.lower()`, character by character (ASCII suffices for the
values compared in `config.py`). -/
def pyLower (s : String) : String := ⟨s.data.map Char.toLower⟩

namespace config

/-- `config.IS_PRODUCTION`: `os.getenv("ENVIRONMENT", "development") == "production"`.
The argument is the value of the `ENVIRONMENT` environment variable. -/
def IS_PRODUCTION (environment : Option String) : Bool :=
  environment.getD "development" == "production"

/-- `config.USE_JSON_FORMAT`:
`os.getenv("USE_JSON_FORMAT", "false").lower() == "true" or IS_PRODUCTION`. -/
def USE_JSON_FORMAT (useJsonFormatVar environment : Option String) : Bool :=
  pyLower (useJsonFormatVar.getD "false") == "true" || IS_PRODUCTION environment

end config

/-- The constants of `config.py` that `setup_logger`'s defaults draw on,
with the computed `USE_JSON_FORMAT` flag included as `config.py` defines it. -/
structure Config where
  DEFAULT_LOG_LEVEL : Nat
  CONSOLE_LOG_LEVEL : Nat
  FILE_LOG_LEVEL : Nat
  USE_JSON_FORMAT : Bool
deriving DecidableEq, Repr

/-- The keyword options of `setup_logger`; `none` on a level means the
caller left the default (the corresponding `Config` constant). -/
structure SetupOptions where
  level : Option Nat
  console_level : Option Nat
  file_level : Option Nat
  enable_console : Bool
  enable_file : Bool
  enable_error_file : Bool
  enable_json_file : Bool
deriving DecidableEq, Repr

/-- All options left at their declared defaults (`setup_logger`'s signature). -/
def defaultOptions : SetupOptions :=
  ⟨none, none, none, true, true, true, true⟩

/-- The kind of an attached handler: `ColoredConsoleHandler`,
`StandardFileHandler filename`, or `JsonFileHandler filename`. -/
inductive HandlerKind where
  | console
  | standardFile (filename : String)
  | jsonFile (filename : String)
deriving DecidableEq, Repr

/-- An attached handler: its kind and its own minimum level (`setLevel`). -/
structure Handler where
  kind : HandlerKind
  level : Nat
deriving DecidableEq, Repr

/-- A `logging.Logger` object: name, level, attached handlers, propagate flag. -/
structure LoggerData where
  name : String
  level : Nat
  handlers : List Handler
  propagate : Bool
deriving DecidableEq, Repr

/-- The process-wide mutable state: the heap of logger objects (`store`,
a handle is an index), Python's global `loggerDict` (`manager`),
and the module cache `_loggers` of `logger.py` (`cache`). -/
structure RegState where
  store : List LoggerData
  manager : List (String × Nat)
  cache : List (String × Nat)
deriving DecidableEq, Repr

/-- The state of a fresh process: no loggers anywhere. -/
def emptyState : RegState := ⟨[], [], []⟩

/-- Replace the element at index `i` by its image under `f` (used for
in-place mutation of a logger object in the store). -/
def modifyAt (f : LoggerData → LoggerData) : Nat → List LoggerData → List LoggerData
  | _, [] => []
  | 0, x :: xs => f x :: xs
  | n + 1, x :: xs => x :: modifyAt f n xs

/-- `logging.getLogger(name)`: return the manager's logger for `name`,
creating and registering a fresh one (level `NOTSET`, no handlers,
`propagate = True`) if absent. -/
def pyGetLogger (name : String) (st : RegState) : Nat × RegState :=
  match List.lookup name st.manager with
  | some i => (i, st)
  | none =>
    let i := st.store.length
    (i, ⟨st.store ++ [⟨name, NOTSET, [], true⟩], (name, i) :: st.manager, st.cache⟩)

/-- The handlers `setup_logger` attaches, in source order: console at
`console_level` if `enable_console`; standard file at `file_level` if
`enable_file`; JSON file at `file_level` if `enable_json_file`; error
file at `logging.ERROR` (hardwired) if `enable_error_file`. -/
def setupHandlers (cfg : Config) (opts : SetupOptions) : List Handler :=
  let console_level := opts.console_level.getD cfg.CONSOLE_LOG_LEVEL
  let file_level := opts.file_level.getD cfg.FILE_LOG_LEVEL
  (if opts.enable_console then [⟨HandlerKind.console, console_level⟩] else [])
  ++ (if opts.enable_file then [⟨HandlerKind.standardFile LOG_FILE, file_level⟩] else [])
  ++ (if opts.enable_json_file then [⟨HandlerKind.jsonFile JSON_LOG_FILE, file_level⟩] else [])
  ++ (if opts.enable_error_file then [⟨HandlerKind.standardFile ERROR_LOG_FILE, ERROR⟩] else [])

/-- `logger.setup_logger(name, level, console_level, file_level,
enable_console, enable_file, enable_error_file, enable_json_file)`.

Mirrors the source line by line: cached-name early return; `logging.getLogger`;
`setLevel`; `config.LOG_DIR.mkdir(exist_ok=True)` (the only fallible step,
modelled by `mkdirFails`; on failure the exception propagates with the
state mutated so far); attach the enabled handlers in source order
(console @ `console_level`, standard file @ `file_level`,
JSON file @ `file_level`, error file hardwired to `ERROR`);
set `propagate = False`; store the handle in `_loggers`. -/
def setup_logger (cfg : Config) (name : String) (opts : SetupOptions)
    (mkdirFails : Bool) (st : RegState) : Except RegState (Nat × RegState) :=
  match List.lookup name st.cache with
  | some i => Except.ok (i, st)
  | none =>
    let level := opts.level.getD cfg.DEFAULT_LOG_LEVEL
    let p := pyGetLogger name st
    let i := p.1
    let st1 := p.2
    let st2 : RegState :=
      ⟨modifyAt (fun lg => { lg with level := level }) i st1.store, st1.manager, st1.cache⟩
    if mkdirFails then Except.error st2
    else
      let hs : List Handler := setupHandlers cfg opts
      let st3 : RegState :=
        ⟨modifyAt (fun lg => { lg with handlers := lg.handlers ++ hs, propagate := false }) i st2.store,
         st2.manager, st2.cache⟩
      Except.ok (i, ⟨st3.store, st3.manager, (name, i) :: st3.cache⟩)

/-- `logger.get_logger(name="app")`: return the cached handle, or delegate
to `setup_logger(name)` with all options at their defaults. -/
def get_logger (cfg : Config) (name : String) (mkdirFails : Bool)
    (st : RegState) : Except RegState (Nat × RegState) :=
  match List.lookup name st.cache with
  | some i => Except.ok (i, st)
  | none => setup_logger cfg name defaultOptions mkdirFails st

/-- `default_logger = get_logger("default")`, executed at module import
(the log directory is assumed creatable at import time). -/
def moduleInit (cfg : Config) : Except RegState (Nat × RegState) :=
  get_logger cfg "default" false emptyState

/-- A Python value carried in an `extra` mapping (strings and numbers are
the shapes this module actually stores there). -/
inductive PyVal where
  | str (s : String)
  | num (n : Nat)
deriving DecidableEq, Repr

/-- First-match lookup in a Python-dict model (an association list whose
keys are unique in any dict the program builds). -/
def dictGet {V : Type} : List (String × V) → String → Option V
  | [], _ => none
  | (k', v) :: rest, k => if k = k' then some v else dictGet rest k

/-- Python `d[k] = v`: overwrite the value in place if `k` is present,
else append the new pair (insertion order preserved). -/
def dictSet {V : Type} : List (String × V) → String → V → List (String × V)
  | [], k, v => [(k, v)]
  | (k', v') :: rest, k, v =>
    if k = k' then (k, v) :: rest else (k', v') :: dictSet rest k v

/-- Python `d.update(u)`: assign every pair of `u` into `d`, left to right. -/
def dictUpdate {V : Type} (d u : List (String × V)) : List (String × V) :=
  u.foldl (fun acc p => dictSet acc p.1 p.2) d

/-- A record as it reaches a handle's dispatch: emitting logger's name,
numeric severity, message, and the extra-field mapping merged into it. -/
structure LogRecord where
  loggerName : String
  levelno : Nat
  msg : String
  extra : List (String × PyVal)
deriving DecidableEq, Repr

/-- Record construction by a plain `Logger` call
(`logger.info(msg, extra=E)` and friends): the record carries exactly
the call's extra mapping. -/
def loggerMakeRecord (lg : LoggerData) (levelno : Nat) (msg : String)
    (extra : List (String × PyVal)) : LogRecord :=
  ⟨lg.name, levelno, msg, extra⟩

/-- `Logger.callHandlers` dispatch for a record of severity `recLevel`
offered to logger `lg` (whose level was set explicitly, so it is the
effective level, and `propagate` is off): if the record passes the
logger's own level it is offered to every attached handler, and each
handler keeps it exactly when `record.levelno >= handler.level`. -/
def callHandlers (lg : LoggerData) (recLevel : Nat) : List Handler :=
  if lg.level ≤ recLevel then lg.handlers.filter (fun h => h.level ≤ recLevel) else []

/-- The derived view built by `log_context`: a `logging.LoggerAdapter`
holding the underlying handle and the context fields. -/
structure ContextAdapterData where
  baseId : Nat
  fields : List (String × PyVal)
deriving DecidableEq, Repr

/-- `ContextAdapter.process`: ensure the call's kwargs have an `extra`
dict (default `{}`), then `kwargs["extra"].update(self.extra)` — the
adapter's context fields are assigned over the call-site extras. -/
def ContextAdapter_process (fields callExtra : List (String × PyVal)) :
    List (String × PyVal) :=
  dictUpdate callExtra fields

/-- Record construction through the adapter: `process` rewrites the extra
mapping, then the underlying logger builds the record. -/
def adapterMakeRecord (ad : ContextAdapterData) (lg : LoggerData) (levelno : Nat)
    (msg : String) (callExtra : List (String × PyVal)) : LogRecord :=
  loggerMakeRecord lg levelno msg (ContextAdapter_process ad.fields callExtra)

/-- `log = logger or get_logger()` — the resolution step shared by
`log_execution_time` (line 169) and `log_context` (line 217): an explicit
logger argument is used as is, otherwise the registry handle named
`"app"` (get_logger's default) is fetched or created. -/
def resolveWrapperLogger (cfg : Config) (loggerArg : Option Nat)
    (mkdirFails : Bool) (st : RegState) : Except RegState (Nat × RegState) :=
  match loggerArg with
  | some i => Except.ok (i, st)
  | none => get_logger cfg "app" mkdirFails st

/-- One call on a logger handle as the wrapper performs it: target handle,
severity, message and extra mapping. -/
structure EmitCall where
  loggerId : Nat
  level : Nat
  msg : String
  extra : List (String × PyVal)
deriving DecidableEq, Repr

/-- The `log.info` call `log_execution_time` makes on normal return:
message with the human-readable duration, `extra = {function,
execution_time, status: "success"}`. -/
def successEmit (logId : Nat) (funcName : String) (execution_time : Nat) : EmitCall :=
  ⟨logId, INFO, funcName ++ " completed in " ++ toString execution_time ++ "s",
   [("function", PyVal.str funcName), ("execution_time", PyVal.num execution_time),
    ("status", PyVal.str "success")]⟩

/-- The `log.error` call `log_execution_time` makes when the wrapped
operation raises `e`: message with duration and failure text,
`extra = {function, execution_time, status: "error", error: str(e)}`. -/
def errorEmit (logId : Nat) (funcName : String) (execution_time : Nat)
    (e : String) : EmitCall :=
  ⟨logId, ERROR, funcName ++ " failed after " ++ toString execution_time ++ "s: " ++ e,
   [("function", PyVal.str funcName), ("execution_time", PyVal.num execution_time),
    ("status", PyVal.str "error"), ("error", PyVal.str e)]⟩

/-- The body of `log_execution_time`'s `wrapper` after the logger is
resolved: run `func`, measure `execution_time = t1 - t0`; on normal
return emit one `log.info` call (`successEmit`) and return the result;
on an exception emit one `log.error` call (`errorEmit`) and re-raise the
same exception. -/
def log_execution_time_body {β : Type} (funcName : String) (logId : Nat)
    (r : Except String β) (t0 t1 : Nat) : Except String β × List EmitCall :=
  let execution_time := t1 - t0
  match r with
  | Except.ok v => (Except.ok v, [successEmit logId funcName execution_time])
  | Except.error e => (Except.error e, [errorEmit logId funcName execution_time e])

/-- A full invocation of the decorated function: resolve the logger
(`logger or get_logger()`), then run the timed body.  The outer `Except`
is an exception escaping logger resolution (directory-creation fault). -/
def log_execution_time_run {α β : Type} (cfg : Config) (loggerArg : Option Nat)
    (mkdirFails : Bool) (funcName : String) (func : α → Except String β)
    (t0 t1 : Nat) (x : α) (st : RegState) :
    Except RegState ((Except String β × List EmitCall) × RegState) :=
  match resolveWrapperLogger cfg loggerArg mkdirFails st with
  | Except.error st' => Except.error st'
  | Except.ok (i, st') => Except.ok (log_execution_time_body funcName i (func x) t0 t1, st')

/-- Entering `with log_context(logger, **context)`: resolve the logger,
then construct `ContextAdapter(log, context)` and yield it.  Nothing else
happens on entry. -/
def log_context_enter (cfg : Config) (loggerArg : Option Nat)
    (context : List (String × PyVal)) (mkdirFails : Bool) (st : RegState) :
    Except RegState (ContextAdapterData × RegState) :=
  match resolveWrapperLogger cfg loggerArg mkdirFails st with
  | Except.error st' => Except.error st'
  | Except.ok (i, st') => Except.ok (⟨i, context⟩, st')

/-- Leaving the `log_context` scope (normally or by exception unwind):
the generator has no code after its `yield`, so the process state is
untouched on every exit path. -/
def log_context_exit (st : RegState) : RegState := st


theorem dictGet_dictSet_self {V : Type} (d : List (String × V)) (k : String) (v : V) :
    dictGet (dictSet d k v) k = some v := by
  induction d with
  | nil => simp [dictSet, dictGet]
  | cons p rest ih =>
    obtain ⟨k', v'⟩ := p
    by_cases h : k = k'
    · simp [dictSet, h, dictGet]
    · simp [dictSet, h, dictGet, ih]

theorem dictGet_dictSet_ne {V : Type} (d : List (String × V)) {k k' : String}
    (v : V) (h : k ≠ k') : dictGet (dictSet d k' v) k = dictGet d k := by
  induction d with
  | nil => simp [dictSet, dictGet, h]
  | cons p rest ih =>
    obtain ⟨k₀, v₀⟩ := p
    by_cases h0 : k' = k₀
    · subst h0
      simp [dictSet, dictGet, h]
    · by_cases h1 : k = k₀
      · simp [dictSet, dictGet, h0, h1]
      · simp [dictSet, dictGet, h0, h1, ih]

theorem dictGet_dictUpdate_not_mem {V : Type} (d u : List (String × V)) (k : String)
    (h : k ∉ u.map Prod.fst) : dictGet (dictUpdate d u) k = dictGet d k := by
  induction u generalizing d with
  | nil => rfl
  | cons p rest ih =>
    simp only [List.map_cons, List.mem_cons] at h
    push_neg at h
    have step : dictUpdate d (p :: rest) = dictUpdate (dictSet d p.1 p.2) rest := rfl
    rw [step, ih (dictSet d p.1 p.2) h.2, dictGet_dictSet_ne d p.2 h.1]

theorem dictGet_dictUpdate_mem {V : Type} (d u : List (String × V)) (k : String) (v : V)
    (hnd : (u.map Prod.fst).Nodup) (hmem : (k, v) ∈ u) :
    dictGet (dictUpdate d u) k = some v := by
  induction u generalizing d with
  | nil => simp at hmem
  | cons p rest ih =>
    simp only [List.map_cons, List.nodup_cons] at hnd
    have step : dictUpdate d (p :: rest) = dictUpdate (dictSet d p.1 p.2) rest := rfl
    rcases List.mem_cons.mp hmem with heq | htail
    · have hk : k = p.1 := by rw [← heq]
      have hnotin : k ∉ rest.map Prod.fst := by rw [hk]; exact hnd.1
      rw [step, dictGet_dictUpdate_not_mem _ _ _ hnotin, hk, ← heq,
        dictGet_dictSet_self]
    · exact step ▸ ih (dictSet d p.1 p.2) hnd.2 htail

/-- C4: every key/value pair of the context fields `F` appears in the
extra-field mapping that `ContextAdapter.process` produces, and on a key
collision with the call-site extras `E` the value from `F` wins (the
statement asserts `F`'s value is the one looked up, whether or not the
key occurs in `E`).  `F` is a Python dict, so its keys are unique. -/
theorem context_fields_override (F E : List (String × PyVal))
    (hnd : (F.map Prod.fst).Nodup) :
    ∀ k v, (k, v) ∈ F → dictGet (ContextAdapter_process F E) k = some v :=
  fun k v hmem => dictGet_dictUpdate_mem E F k v hnd hmem

/-- Witness for C4 at a colliding key: the context binds `"a"` to `1`,
the call-site extras bind `"a"` to `2`; the merged record carries `1`. -/
theorem context_fields_override_w :
    dictGet (ContextAdapter_process [("a", PyVal.num 1)]
      [("a", PyVal.num 2), ("b", PyVal.num 3)]) "a" = some (PyVal.num 1) :=
  context_fields_override [("a", PyVal.num 1)] [("a", PyVal.num 2), ("b", PyVal.num 3)]
    (by decide) "a" (PyVal.num 1) (by decide)

theorem mem_callHandlers_iff (lg : LoggerData) (recLevel : Nat) (h : Handler) :
    h ∈ callHandlers lg recLevel ↔
      h ∈ lg.handlers ∧ lg.level ≤ recLevel ∧ h.level ≤ recLevel := by
  unfold callHandlers
  by_cases hg : lg.level ≤ recLevel
  · simp [hg, List.mem_filter]
  · simp [hg]

/-- C8: a record offered to a handle's dispatch (severity `recLevel`,
passing the handle's overall level, which the right-hand conjunct
records) is delivered to an attached sink exactly when its severity is
at least that sink's own minimum level; the condition mentions only the
sink itself, so one sink's filtering never affects the others. -/
theorem sink_level_filtering (lg : LoggerData) (recLevel : Nat) (h : Handler) :
    h ∈ callHandlers lg recLevel ↔
      h ∈ lg.handlers ∧ lg.level ≤ recLevel ∧ h.level ≤ recLevel :=
  mem_callHandlers_iff lg recLevel h

theorem pyGetLogger_cache (name : String) (st : RegState) :
    (pyGetLogger name st).2.cache = st.cache := by
  rcases hm : List.lookup name st.manager with _ | i <;> simp [pyGetLogger, hm]

theorem setup_logger_cache_hit (cfg : Config) (name : String) (opts : SetupOptions)
    (mk : Bool) (st : RegState) (i : Nat) (hc : List.lookup name st.cache = some i) :
    setup_logger cfg name opts mk st = Except.ok (i, st) := by
  simp [setup_logger, hc]

theorem setup_logger_fresh_ok (cfg : Config) (name : String) (opts : SetupOptions)
    (st : RegState) (hc : List.lookup name st.cache = none) :
    setup_logger cfg name opts false st =
      Except.ok ((pyGetLogger name st).1,
        ⟨modifyAt
            (fun lg => { lg with handlers := lg.handlers ++ setupHandlers cfg opts,
                                 propagate := false })
            (pyGetLogger name st).1
            (modifyAt (fun lg => { lg with level := opts.level.getD cfg.DEFAULT_LOG_LEVEL })
              (pyGetLogger name st).1 (pyGetLogger name st).2.store),
         (pyGetLogger name st).2.manager,
         (name, (pyGetLogger name st).1) :: (pyGetLogger name st).2.cache⟩) := by
  simp [setup_logger, hc]

theorem setup_logger_fresh_mkdir_fault (cfg : Config) (name : String)
    (opts : SetupOptions) (st : RegState) (hc : List.lookup name st.cache = none) :
    setup_logger cfg name opts true st =
      Except.error
        ⟨modifyAt (fun lg => { lg with level := opts.level.getD cfg.DEFAULT_LOG_LEVEL })
            (pyGetLogger name st).1 (pyGetLogger name st).2.store,
         (pyGetLogger name st).2.manager, (pyGetLogger name st).2.cache⟩ := by
  simp [setup_logger, hc]

theorem setup_logger_caches (cfg : Config) (name : String) (opts : SetupOptions)
    (mk : Bool) (st : RegState) (i : Nat) (st' : RegState)
    (h : setup_logger cfg name opts mk st = Except.ok (i, st')) :
    List.lookup name st'.cache = some i := by
  rcases hc : List.lookup name st.cache with _ | j
  · cases mk
    · rw [setup_logger_fresh_ok cfg name opts st hc] at h
      simp only [Except.ok.injEq, Prod.mk.injEq] at h
      rw [← h.2, ← h.1]
      simp [List.lookup]
    · rw [setup_logger_fresh_mkdir_fault cfg name opts st hc] at h
      cases h
  · rw [setup_logger_cache_hit cfg name opts mk st j hc] at h
    simp only [Except.ok.injEq, Prod.mk.injEq] at h
    rw [← h.2, hc, h.1]

theorem get_logger_caches (cfg : Config) (name : String) (mk : Bool)
    (st : RegState) (i : Nat) (st' : RegState)
    (h : get_logger cfg name mk st = Except.ok (i, st')) :
    List.lookup name st'.cache = some i := by
  rcases hc : List.lookup name st.cache with _ | j
  · rw [get_logger, hc] at h
    exact setup_logger_caches cfg name defaultOptions mk st i st' h
  · rw [get_logger, hc] at h
    simp only [Except.ok.injEq, Prod.mk.injEq] at h
    rw [← h.2, hc, h.1]

/-- C1: once a request for `name` has succeeded (through `setup_logger` or
`get_logger`) and produced handle `i`, every later request for that name —
with any options, and even with a failing log directory — returns the very
same handle `i` with the process state untouched, so the registry never
holds two handles for one name. -/
theorem registry_idempotent (cfg : Config) (name : String) (opts : SetupOptions)
    (mk : Bool) (st : RegState) (i : Nat) (st' : RegState)
    (h : setup_logger cfg name opts mk st = Except.ok (i, st') ∨
         get_logger cfg name mk st = Except.ok (i, st')) :
    ∀ (opts' : SetupOptions) (mk' : Bool),
      setup_logger cfg name opts' mk' st' = Except.ok (i, st') ∧
      get_logger cfg name mk' st' = Except.ok (i, st') := by
  have hc : List.lookup name st'.cache = some i := by
    rcases h with h | h
    · exact setup_logger_caches cfg name opts mk st i st' h
    · exact get_logger_caches cfg name mk st i st' h
  intro opts' mk'
  exact ⟨setup_logger_cache_hit cfg name opts' mk' st' i hc, by simp [get_logger, hc]⟩

/-- Development-default configuration (`LOG_LEVEL` etc. unset, not production). -/
def cfgDev : Config := ⟨DEBUG, DEBUG, DEBUG, false⟩

/-- The process state after `setup_logger("app")` with default options
runs on a fresh process under `cfgDev`. -/
def stApp : RegState :=
  ⟨[⟨"app", 10,
     [⟨HandlerKind.console, 10⟩, ⟨HandlerKind.standardFile LOG_FILE, 10⟩,
      ⟨HandlerKind.jsonFile JSON_LOG_FILE, 10⟩,
      ⟨HandlerKind.standardFile ERROR_LOG_FILE, 40⟩], false⟩],
   [("app", 0)], [("app", 0)]⟩

/-- Witness for C1: after creating `"app"` in a fresh process, a second
request with entirely different options and a failing mkdir still returns
handle `0` and the unchanged state. -/
theorem registry_idempotent_w :
    setup_logger cfgDev "app" ⟨some 30, some 30, some 30, false, false, false, false⟩
      true stApp = Except.ok (0, stApp) ∧
    get_logger cfgDev "app" true stApp = Except.ok (0, stApp) :=
  registry_idempotent cfgDev "app" defaultOptions false emptyState 0 stApp
    (Or.inl (by rfl)) ⟨some 30, some 30, some 30, false, false, false, false⟩ true

/-- C9: when the requested name is not yet cached and creating the log
directory fails, both `setup_logger` and `get_logger` propagate the fault
to their caller, and the registry cache `_loggers` is exactly what it was:
in particular no (partial) handle is cached under the requested name. -/
theorem mkdir_fault_propagates (cfg : Config) (name : String) (opts : SetupOptions)
    (st : RegState) (hc : List.lookup name st.cache = none) :
    (∃ st', setup_logger cfg name opts true st = Except.error st' ∧
       st'.cache = st.cache ∧ List.lookup name st'.cache = none) ∧
    (∃ st'', get_logger cfg name true st = Except.error st'' ∧
       st''.cache = st.cache ∧ List.lookup name st''.cache = none) := by
  have aux : ∀ o : SetupOptions,
      ∃ st', setup_logger cfg name o true st = Except.error st' ∧
        st'.cache = st.cache ∧ List.lookup name st'.cache = none := by
    intro o
    refine ⟨_, setup_logger_fresh_mkdir_fault cfg name o st hc, ?_, ?_⟩
    · exact pyGetLogger_cache name st
    · show List.lookup name (pyGetLogger name st).2.cache = none
      rw [pyGetLogger_cache name st]
      exact hc
  constructor
  · exact aux opts
  · obtain ⟨st', h1, h2, h3⟩ := aux defaultOptions
    refine ⟨st', ?_, h2, h3⟩
    rw [get_logger, hc]
    exact h1

/-- Witness for C9: a fresh process whose log directory cannot be created. -/
theorem mkdir_fault_propagates_w :
    (∃ st', setup_logger cfgDev "app" defaultOptions true emptyState = Except.error st' ∧
       st'.cache = emptyState.cache ∧ List.lookup "app" st'.cache = none) ∧
    (∃ st'', get_logger cfgDev "app" true emptyState = Except.error st'' ∧
       st''.cache = emptyState.cache ∧ List.lookup "app" st''.cache = none) :=
  mkdir_fault_propagates cfgDev "app" defaultOptions emptyState (by rfl)

/-- C2: if the wrapped operation returns normally with value `v`, the
decorated call returns the same `v` unchanged and performs exactly one
emission — an info-level call whose extra fields carry the operation's
name, `status = "success"`, and the measured execution time
`t1 - t0` (in clock ticks standing for seconds). -/
theorem timing_success {α β : Type} (cfg : Config) (loggerArg : Option Nat)
    (mk : Bool) (funcName : String) (func : α → Except String β)
    (t0 t1 : Nat) (x : α) (st : RegState) (i : Nat) (st' : RegState) (v : β)
    (hres : resolveWrapperLogger cfg loggerArg mk st = Except.ok (i, st'))
    (hf : func x = Except.ok v) :
    log_execution_time_run cfg loggerArg mk funcName func t0 t1 x st =
      Except.ok ((Except.ok v, [successEmit i funcName (t1 - t0)]), st') ∧
    (successEmit i funcName (t1 - t0)).level = INFO ∧
    dictGet (successEmit i funcName (t1 - t0)).extra "function" =
      some (PyVal.str funcName) ∧
    dictGet (successEmit i funcName (t1 - t0)).extra "execution_time" =
      some (PyVal.num (t1 - t0)) ∧
    dictGet (successEmit i funcName (t1 - t0)).extra "status" =
      some (PyVal.str "success") := by
  refine ⟨?_, rfl, ?_, ?_, ?_⟩
  · simp [log_execution_time_run, hres, log_execution_time_body, hf]
  · simp [successEmit, dictGet]
  · simp [successEmit, dictGet]
  · simp [successEmit, dictGet]

/-- Witness for C2: a decorated operation returning `7` between ticks 2
and 5, logged through the explicitly passed handle `0`. -/
theorem timing_success_w :
    log_execution_time_run cfgDev (some 0) false "slow_operation"
      (fun _ : Nat => Except.ok (7 : Nat)) 2 5 0 stApp =
      Except.ok ((Except.ok 7, [successEmit 0 "slow_operation" 3]), stApp) ∧
    (successEmit 0 "slow_operation" 3).level = INFO ∧
    dictGet (successEmit 0 "slow_operation" 3).extra "function" =
      some (PyVal.str "slow_operation") ∧
    dictGet (successEmit 0 "slow_operation" 3).extra "execution_time" =
      some (PyVal.num 3) ∧
    dictGet (successEmit 0 "slow_operation" 3).extra "status" =
      some (PyVal.str "success") :=
  timing_success cfgDev (some 0) false "slow_operation"
    (fun _ : Nat => Except.ok (7 : Nat)) 2 5 0 stApp 0 stApp 7 rfl rfl

/-- C3: if the wrapped operation raises exception `e`, the decorated call
performs exactly one emission — an error-level call whose extra fields
carry the operation's name, `status = "error"`, the execution time and
the failure description — and then re-raises the very same `e` to the
caller (the inner `Except.error e` of the result). -/
theorem timing_failure {α β : Type} (cfg : Config) (loggerArg : Option Nat)
    (mk : Bool) (funcName : String) (func : α → Except String β)
    (t0 t1 : Nat) (x : α) (st : RegState) (i : Nat) (st' : RegState) (e : String)
    (hres : resolveWrapperLogger cfg loggerArg mk st = Except.ok (i, st'))
    (hf : func x = Except.error e) :
    log_execution_time_run cfg loggerArg mk funcName func t0 t1 x st =
      Except.ok ((Except.error e, [errorEmit i funcName (t1 - t0) e]), st') ∧
    (errorEmit i funcName (t1 - t0) e).level = ERROR ∧
    dictGet (errorEmit i funcName (t1 - t0) e).extra "function" =
      some (PyVal.str funcName) ∧
    dictGet (errorEmit i funcName (t1 - t0) e).extra "execution_time" =
      some (PyVal.num (t1 - t0)) ∧
    dictGet (errorEmit i funcName (t1 - t0) e).extra "status" =
      some (PyVal.str "error") ∧
    dictGet (errorEmit i funcName (t1 - t0) e).extra "error" =
      some (PyVal.str e) := by
  refine ⟨?_, rfl, ?_, ?_, ?_, ?_⟩
  · simp [log_execution_time_run, hres, log_execution_time_body, hf]
  · simp [errorEmit, dictGet]
  · simp [errorEmit, dictGet]
  · simp [errorEmit, dictGet]
  · simp [errorEmit, dictGet]

/-- Witness for C3: a decorated operation raising a `ValueError` text
between ticks 2 and 6. -/
theorem timing_failure_w :
    log_execution_time_run cfgDev (some 0) false "error_operation"
      (fun _ : Nat => (Except.error "boom" : Except String Nat)) 2 6 0 stApp =
      Except.ok ((Except.error "boom", [errorEmit 0 "error_operation" 4 "boom"]), stApp) ∧
    (errorEmit 0 "error_operation" 4 "boom").level = ERROR ∧
    dictGet (errorEmit 0 "error_operation" 4 "boom").extra "function" =
      some (PyVal.str "error_operation") ∧
    dictGet (errorEmit 0 "error_operation" 4 "boom").extra "execution_time" =
      some (PyVal.num 4) ∧
    dictGet (errorEmit 0 "error_operation" 4 "boom").extra "status" =
      some (PyVal.str "error") ∧
    dictGet (errorEmit 0 "error_operation" 4 "boom").extra "error" =
      some (PyVal.str "boom") :=
  timing_failure cfgDev (some 0) false "error_operation"
    (fun _ : Nat => (Except.error "boom" : Except String Nat)) 2 6 0 stApp 0 stApp
    "boom" rfl rfl

/-- C5: entering `log_context` with an explicit logger builds only the
derived adapter view and leaves the process state — hence the underlying
handle's level, sinks and registry entry — exactly as it was; leaving the
scope (`log_context_exit`, the same on normal exit and on exception
unwind, since the generator has no code after its `yield`) changes
nothing either; and a record emitted afterwards through the original
(non-adapted) handle carries exactly the extras of that call, so a
context key absent from those extras is absent from the record. -/
theorem log_context_no_mutation (cfg : Config) (i : Nat)
    (ctx : List (String × PyVal)) (mk : Bool) (st : RegState)
    (lg : LoggerData) (lvl : Nat) (msg : String) (E : List (String × PyVal)) :
    log_context_enter cfg (some i) ctx mk st = Except.ok (⟨i, ctx⟩, st) ∧
    log_context_exit st = st ∧
    (loggerMakeRecord lg lvl msg E).extra = E ∧
    (∀ k, k ∈ ctx.map Prod.fst → dictGet E k = none →
      dictGet (loggerMakeRecord lg lvl msg E).extra k = none) := by
  refine ⟨rfl, rfl, rfl, ?_⟩
  intro k _ hkE
  simpa [loggerMakeRecord] using hkE

/-- Witness for C5: after a scope that injected `request_id`, a record
emitted via the original handle with empty extras does not carry it. -/
theorem log_context_no_mutation_w :
    dictGet (loggerMakeRecord ⟨"app", 10, [], false⟩ INFO "m" []).extra
      "request_id" = none :=
  (log_context_no_mutation cfgDev 0 [("request_id", PyVal.num 5)] false stApp
    ⟨"app", 10, [], false⟩ INFO "m" []).2.2.2 "request_id" (by decide) (by rfl)

/-- Production configuration: same levels as `cfgDev`, but the computed
`USE_JSON_FORMAT` flag is true (e.g. `ENVIRONMENT=production`). -/
def cfgProd : Config := ⟨DEBUG, DEBUG, DEBUG, true⟩

/-- C6 counterexample: under `ENVIRONMENT=production` the computed
`USE_JSON_FORMAT` flag is indeed true, yet handle construction is
identical whether the flag is true or false — `setup_logger` attaches
exactly the same sinks with exactly the same formats, so the flag does
not change which sinks or formats are attached. -/
theorem use_json_format_ignored_cx :
    config.USE_JSON_FORMAT none (some "production") = true ∧
    cfgProd.USE_JSON_FORMAT ≠ cfgDev.USE_JSON_FORMAT ∧
    setup_logger cfgProd "app" defaultOptions false emptyState =
      setup_logger cfgDev "app" defaultOptions false emptyState :=
  ⟨by decide, by decide, rfl⟩

/-- C6 amended: `config.py` computes `USE_JSON_FORMAT` (true when
`ENVIRONMENT` is `"production"` or the `USE_JSON_FORMAT` variable is set
true), but `setup_logger` never consults it — its result is the same for
any value of the flag — and the JSON-format file sink is attached exactly
when the `enable_json_file` option is true (its default). -/
theorem use_json_format_unused :
    (∀ (cfg : Config) (b : Bool) (name : String) (opts : SetupOptions)
       (mk : Bool) (st : RegState),
       setup_logger ⟨cfg.DEFAULT_LOG_LEVEL, cfg.CONSOLE_LOG_LEVEL,
           cfg.FILE_LOG_LEVEL, b⟩ name opts mk st =
         setup_logger cfg name opts mk st) ∧
    (∀ (cfg : Config) (opts : SetupOptions),
       (⟨HandlerKind.jsonFile JSON_LOG_FILE,
           opts.file_level.getD cfg.FILE_LOG_LEVEL⟩ : Handler) ∈
           setupHandlers cfg opts ↔ opts.enable_json_file = true) := by
  constructor
  · intro cfg b name opts mk st
    rfl
  · intro cfg opts
    cases hec : opts.enable_console <;> cases hef : opts.enable_file <;>
      cases hej : opts.enable_json_file <;> cases heef : opts.enable_error_file <;>
      simp [setupHandlers, hec, hef, hej, heef]

theorem mem_ite_singleton {x hd : Handler} {b : Bool}
    (h : hd ∈ (if b = true then [x] else [])) : hd = x := by
  cases b
  · simp at h
  · simpa using h

theorem setupHandlers_error_level (cfg : Config) (opts : SetupOptions) :
    ∀ hd ∈ setupHandlers cfg opts,
      hd.kind = HandlerKind.standardFile ERROR_LOG_FILE → hd.level = ERROR := by
  intro hd hmem hkind
  simp only [setupHandlers, List.mem_append] at hmem
  rcases hmem with ((h | h) | h) | h
  · rw [mem_ite_singleton h] at hkind
    simp at hkind
  · rw [mem_ite_singleton h] at hkind
    simp only [] at hkind
    exact absurd hkind (by decide)
  · rw [mem_ite_singleton h] at hkind
    simp at hkind
  · rw [mem_ite_singleton h]

theorem get?_append_singleton (l : List LoggerData) (x : LoggerData) :
    (l ++ [x]).get? l.length = some x := by
  induction l with
  | nil => rfl
  | cons y ys ih => simp only [List.cons_append, List.length_cons, List.get?_cons_succ, ih]

theorem modifyAt_append_length (f : LoggerData → LoggerData)
    (l : List LoggerData) (x : LoggerData) :
    modifyAt f l.length (l ++ [x]) = l ++ [f x] := by
  induction l with
  | nil => rfl
  | cons y ys ih => simp [modifyAt, ih]

theorem setup_logger_fresh_new (cfg : Config) (name : String)
    (opts : SetupOptions) (st : RegState)
    (hc : List.lookup name st.cache = none)
    (hm : List.lookup name st.manager = none) :
    setup_logger cfg name opts false st =
      Except.ok (st.store.length,
        ⟨st.store ++ [⟨name, opts.level.getD cfg.DEFAULT_LOG_LEVEL,
            setupHandlers cfg opts, false⟩],
         (name, st.store.length) :: st.manager,
         (name, st.store.length) :: st.cache⟩) := by
  have hp : pyGetLogger name st =
      (st.store.length,
       ⟨st.store ++ [⟨name, NOTSET, [], true⟩],
        (name, st.store.length) :: st.manager, st.cache⟩) := by
    simp [pyGetLogger, hm]
  rw [setup_logger_fresh_ok cfg name opts st hc, hp]
  simp [modifyAt_append_length]

/-- C7: when `setup_logger` first builds a handle for a fresh name with
the error-file sink enabled, that sink's own minimum level is `ERROR`
whatever the `level` and `file_level` options say (every error-file
handler on the handle has level `ERROR`), and dispatch delivers the
record to it exactly when the record passes the handle's overall level
and its severity is `ERROR` (40) or above — i.e. error or critical among
the standard severities. -/
theorem error_sink_hardwired (cfg : Config) (name : String)
    (opts : SetupOptions) (st : RegState)
    (hc : List.lookup name st.cache = none)
    (hm : List.lookup name st.manager = none)
    (hef : opts.enable_error_file = true) :
    ∃ i st' lg, setup_logger cfg name opts false st = Except.ok (i, st') ∧
      st'.store.get? i = some lg ∧
      (⟨HandlerKind.standardFile ERROR_LOG_FILE, ERROR⟩ : Handler) ∈ lg.handlers ∧
      (∀ hd ∈ lg.handlers,
        hd.kind = HandlerKind.standardFile ERROR_LOG_FILE → hd.level = ERROR) ∧
      (∀ recLevel,
        (⟨HandlerKind.standardFile ERROR_LOG_FILE, ERROR⟩ : Handler) ∈
            callHandlers lg recLevel ↔
          lg.level ≤ recLevel ∧ ERROR ≤ recLevel) := by
  have hin : (⟨HandlerKind.standardFile ERROR_LOG_FILE, ERROR⟩ : Handler) ∈
      setupHandlers cfg opts := by
    simp [setupHandlers, hef]
  refine ⟨st.store.length, _,
    ⟨name, opts.level.getD cfg.DEFAULT_LOG_LEVEL, setupHandlers cfg opts, false⟩,
    setup_logger_fresh_new cfg name opts st hc hm, ?_, hin, ?_, ?_⟩
  · exact get?_append_singleton st.store _
  · exact setupHandlers_error_level cfg opts
  · intro recLevel
    rw [mem_callHandlers_iff]
    exact ⟨fun h => ⟨h.2.1, h.2.2⟩, fun h => ⟨hin, h.1, h.2⟩⟩

/-- Witness for C7: the first build of `"app"` in a fresh process, with a
`file_level` of `DEBUG`, still hardwires the error sink to `ERROR`. -/
theorem error_sink_hardwired_w :
    ∃ i st' lg, setup_logger cfgDev "app" defaultOptions false emptyState =
        Except.ok (i, st') ∧
      st'.store.get? i = some lg ∧
      (⟨HandlerKind.standardFile ERROR_LOG_FILE, ERROR⟩ : Handler) ∈ lg.handlers ∧
      (∀ hd ∈ lg.handlers,
        hd.kind = HandlerKind.standardFile ERROR_LOG_FILE → hd.level = ERROR) ∧
      (∀ recLevel,
        (⟨HandlerKind.standardFile ERROR_LOG_FILE, ERROR⟩ : Handler) ∈
            callHandlers lg recLevel ↔
          lg.level ≤ recLevel ∧ ERROR ≤ recLevel) :=
  error_sink_hardwired cfgDev "app" defaultOptions emptyState rfl rfl rfl

theorem lookup_mem {V : Type} {k : String} {v : V} :
    ∀ {l : List (String × V)}, List.lookup k l = some v → (k, v) ∈ l := by
  intro l h
  induction l with
  | nil => simp [List.lookup] at h
  | cons p rest ih =>
    obtain ⟨k', v'⟩ := p
    rw [List.lookup] at h
    by_cases hk : k == k'
    · rw [hk] at h
      simp only [Option.some.injEq] at h
      have hkk : k = k' := eq_of_beq hk
      rw [hkk, h]
      exact List.mem_cons_self _ _
    · rw [Bool.not_eq_true] at hk
      rw [hk] at h
      exact List.mem_cons_of_mem _ (ih h)

/-- Well-formedness of the process state, true of every state the module
can reach: every manager entry points at a store cell holding a logger of
that very name, and the module cache is a subset of the manager (both are
only ever extended together by `setup_logger`). -/
def RegState.WF (st : RegState) : Prop :=
  (∀ p ∈ st.manager, (st.store.get? p.2).map LoggerData.name = some p.1) ∧
  (∀ p ∈ st.cache, p ∈ st.manager)

theorem setup_logger_ok_id (cfg : Config) (name : String) (opts : SetupOptions)
    (mk : Bool) (st : RegState) (i : Nat) (st' : RegState)
    (hc : List.lookup name st.cache = none)
    (h : setup_logger cfg name opts mk st = Except.ok (i, st')) :
    i = (pyGetLogger name st).1 := by
  cases mk
  · rw [setup_logger_fresh_ok cfg name opts st hc] at h
    simp only [Except.ok.injEq, Prod.mk.injEq] at h
    exact h.1.symm
  · rw [setup_logger_fresh_mkdir_fault cfg name opts st hc] at h
    cases h

theorem get?_some_lt {l : List LoggerData} {n : Nat} {x : LoggerData}
    (h : l.get? n = some x) : n < l.length := by
  by_contra hlt
  rw [List.get?_eq_none.mpr (Nat.le_of_not_lt hlt)] at h
  cases h

/-- C10: with no logger argument, the wrapper resolution shared by
`log_execution_time` and `log_context` goes to the registry under
`get_logger`'s default name `"app"`; in any well-formed state whose cache
holds `"default"` (the handle the module-level convenience functions
use), the handle it resolves to is a different one. -/
theorem default_wrapper_logger_is_app (cfg : Config) (mk : Bool)
    (st : RegState) (d : Nat) (hwf : st.WF)
    (hd : List.lookup "default" st.cache = some d) :
    resolveWrapperLogger cfg none mk st = get_logger cfg "app" mk st ∧
    ∀ i st', resolveWrapperLogger cfg none mk st = Except.ok (i, st') → i ≠ d := by
  obtain ⟨hnames, hcm⟩ := hwf
  have hdname : (st.store.get? d).map LoggerData.name = some "default" :=
    hnames _ (hcm _ (lookup_mem hd))
  refine ⟨rfl, ?_⟩
  intro i st' hres heq
  subst heq
  have hres' : get_logger cfg "app" mk st = Except.ok (i, st') := hres
  rcases hac : List.lookup "app" st.cache with _ | j
  · rw [get_logger, hac] at hres'
    have hi : i = (pyGetLogger "app" st).1 :=
      setup_logger_ok_id cfg "app" defaultOptions mk st i st' hac hres'
    rcases ham : List.lookup "app" st.manager with _ | m
    · have hfresh : (pyGetLogger "app" st).1 = st.store.length := by
        simp [pyGetLogger, ham]
      have hdlt : i < st.store.length := by
        rcases hg : st.store.get? i with _ | lg
        · rw [hg] at hdname
          cases hdname
        · exact get?_some_lt hg
      rw [hi, hfresh] at hdlt
      exact Nat.lt_irrefl _ hdlt
    · have hmname : (st.store.get? m).map LoggerData.name = some "app" :=
        hnames _ (lookup_mem ham)
      have hm : (pyGetLogger "app" st).1 = m := by
        simp [pyGetLogger, ham]
      rw [hi, hm] at hdname
      rw [hmname] at hdname
      exact absurd hdname (by decide)
  · rw [get_logger, hac] at hres'
    simp only [Except.ok.injEq, Prod.mk.injEq] at hres'
    have hjname : (st.store.get? j).map LoggerData.name = some "app" :=
      hnames _ (hcm _ (lookup_mem hac))
    rw [hres'.1, hdname] at hjname
    exact absurd hjname (by decide)

/-- The process state after module import under `cfgDev`:
`default_logger = get_logger("default")` has run on a fresh process. -/
def stDefault : RegState :=
  ⟨[⟨"default", 10,
     [⟨HandlerKind.console, 10⟩, ⟨HandlerKind.standardFile LOG_FILE, 10⟩,
      ⟨HandlerKind.jsonFile JSON_LOG_FILE, 10⟩,
      ⟨HandlerKind.standardFile ERROR_LOG_FILE, 40⟩], false⟩],
   [("default", 0)], [("default", 0)]⟩

/-- The process state after the wrapper resolution has additionally
created the `"app"` handle on top of `stDefault`. -/
def stBoth : RegState :=
  ⟨[⟨"default", 10,
     [⟨HandlerKind.console, 10⟩, ⟨HandlerKind.standardFile LOG_FILE, 10⟩,
      ⟨HandlerKind.jsonFile JSON_LOG_FILE, 10⟩,
      ⟨HandlerKind.standardFile ERROR_LOG_FILE, 40⟩], false⟩,
    ⟨"app", 10,
     [⟨HandlerKind.console, 10⟩, ⟨HandlerKind.standardFile LOG_FILE, 10⟩,
      ⟨HandlerKind.jsonFile JSON_LOG_FILE, 10⟩,
      ⟨HandlerKind.standardFile ERROR_LOG_FILE, 40⟩], false⟩],
   [("app", 1), ("default", 0)], [("app", 1), ("default", 0)]⟩

/-- Witness for C10: right after module import, a wrapper invoked with no
logger argument resolves to the freshly created `"app"` handle `1`, which
is not the `"default"` handle `0`. -/
theorem default_wrapper_logger_is_app_w :
    resolveWrapperLogger cfgDev none false stDefault = Except.ok (1, stBoth) ∧
    (1 : Nat) ≠ 0 :=
  ⟨rfl, (default_wrapper_logger_is_app cfgDev false stDefault 0
    ⟨by decide, by decide⟩ rfl).2 1 stBoth rfl⟩
